import Mathlib

/-!
Shallow embedding of the RBAC engine of `src/rbac.py` (class `RBACManager`).

Modelling conventions:
* Python `set[str]` fields of the manager become `List String` (iteration order of a
  Python set is unspecified; every theorem below is quantified over the list, so no
  particular order is assumed).
* The Slack web client (the DirectoryClient of the spec) is a record of deterministic
  call behaviours.  Each call either returns a typed response or fails with one of
  two error kinds: `DirErr.api` models `SlackApiError` (the only exception type the
  source catches) and `DirErr.other` models any other exception (connection errors,
  malformed-response key errors), which the source does not catch.
* Python exceptions escaping a function are modelled by `Except.error ()` in the
  first component of the result; `Except.ok` carries the returned value.
* Mutable caches are threaded explicitly as a `Caches` value; timestamps are `Nat`
  seconds and `datetime.now().timestamp()` is the explicit `now` argument.
* Observable side effects are collected in a `List Event`: one `Event.dirCall` per
  Slack API call issued (also when the call fails), one `Event.logRecord` for the
  access-attempt log line of `check_user_permission`, and one `Event.notifySink`
  for an invocation of `notify_admin_of_denied_access` (the NotificationSink of the spec).
* Cache dictionaries become association lists; insertion prepends, lookup takes the
  first binding, which is observationally the Python dict update/lookup behaviour.
-/

namespace RBAC

/-- Decidable equality for `Except`, needed to evaluate concrete runs by `decide`. -/
instance {ε : Type u} {α : Type v} [DecidableEq ε] [DecidableEq α] :
    DecidableEq (Except ε α) := fun a b =>
  match a, b with
  | .error e, .error f =>
    if h : e = f then .isTrue (by rw [h]) else .isFalse (fun hc => h (by injection hc))
  | .error _, .ok _ => .isFalse (fun hc => Except.noConfusion hc)
  | .ok _, .error _ => .isFalse (fun hc => Except.noConfusion hc)
  | .ok x, .ok y =>
    if h : x = y then .isTrue (by rw [h]) else .isFalse (fun hc => h (by injection hc))

/-- Error kind of a directory (Slack) call: `api` is `SlackApiError`, the only kind
the source catches; `other` is any other exception type. -/
inductive DirErr where
  | api : DirErr
  | other : DirErr
deriving DecidableEq, Repr

/-- Observable effects of a permission-engine call. -/
inductive Event where
  | dirCall (apiName : String) : Event
  | logRecord (user_id operation : String) : Event
  | notifySink (user_id operation : String) : Event
deriving DecidableEq, Repr

/-- A member record of a `users_list` response, with the fields the source reads
(`user.get("name")`, `user.get("real_name", "")`, `user.get("display_name")`,
`user.get("profile", {}).get("display_name")`, `user.get("profile", {}).get("real_name", "")`,
`user.get("deleted", False)`, `user["id"]`); absent keys are `none`. -/
structure SlackUser where
  id : String
  deleted : Bool
  name : Option String
  real_name : Option String
  display_name : Option String
  profile_display_name : Option String
  profile_real_name : Option String
deriving DecidableEq, Repr

structure UsersListResponse where
  ok : Bool
  members : List SlackUser
deriving DecidableEq, Repr

structure EmailLookupResponse where
  ok : Bool
  user_id : String
deriving DecidableEq, Repr

structure Usergroup where
  id : String
  handle : String
deriving DecidableEq, Repr

structure UsergroupsListResponse where
  ok : Bool
  usergroups : List Usergroup
deriving DecidableEq, Repr

structure GroupMembersResponse where
  ok : Bool
  users : List String
deriving DecidableEq, Repr

/-- Deterministic behaviour of the Slack client (the DirectoryClient). -/
structure SlackClient where
  users_list : Except DirErr UsersListResponse
  users_lookupByEmail : String → Except DirErr EmailLookupResponse
  usergroups_list : Except DirErr UsergroupsListResponse
  usergroups_users_list : String → Except DirErr GroupMembersResponse
  users_info : String → Except DirErr Unit
  chat_postMessage : String → Except DirErr Unit

/-- The RBAC policy fields of `RBACManager`. -/
structure RBACConfig where
  admin_users : List String
  admin_groups : List String
  admin_operations : List String
  user_operations : List String
  self_service_operations : List String
  rbac_enabled : Bool
  notify_admin_on_denied : Bool
  log_access_attempts : Bool
deriving DecidableEq, Repr

/-- One cached value with its insertion timestamp (`{"...": value, "timestamp": ts}`). -/
structure CacheEntry (V : Type) where
  value : V
  timestamp : Nat
deriving DecidableEq, Repr

/-- The two caches of `RBACManager`. -/
structure Caches where
  group_membership_cache : List (String × CacheEntry Bool)
  username_to_id_cache : List (String × CacheEntry String)
deriving DecidableEq, Repr

def emptyCaches : Caches := ⟨[], []⟩

/-- Source constant `self.cache_ttl = 300`. -/
def cache_ttl : Nat := 300

/-- Cache read: a bound key is served iff `now - timestamp < cache_ttl`; a stale
binding is treated as a miss (and later overwritten by a fresh insert). -/
def lookupValid {V : Type} (now : Nat) (cache : List (String × CacheEntry V))
    (key : String) : Option V :=
  match cache.lookup key with
  | some e => if now - e.timestamp < cache_ttl then some e.value else none
  | none => none

/-- Source test `admin_entry.startswith("U") and len(admin_entry) == 11`. -/
def looks_like_user_id (s : String) : Bool :=
  (match s.data with
   | [] => false
   | c :: _ => c == 'U') && s.data.length == 11

/-- Source expression `admin_entry.lstrip("@")`: drop every leading at sign. -/
def stripAts (s : String) : String := String.mk (s.data.dropWhile (fun c => c == '@'))

/-- Source test `"@" in username`. -/
def hasAtSign (s : String) : Bool := s.data.contains '@'

/-- The username-match conditions of `resolve_username_to_user_id`, in source order. -/
def user_matches (username : String) (u : SlackUser) : Bool :=
  u.name == some username
    || (u.real_name.getD "").toLower == username.toLower
    || u.display_name == some username
    || u.profile_display_name == some username
    || (u.profile_real_name.getD "").toLower == username.toLower

/-- The `for user in response["members"]` loop: first non-deleted matching member wins. -/
def find_matching_user (username : String) : List SlackUser → Option String
  | [] => none
  | u :: rest =>
    if !u.deleted && user_matches username u then some u.id
    else find_matching_user username rest

/-- Embedding of `RBACManager.resolve_username_to_user_id`.  `SlackApiError` from `users_list` is
caught and yields `none`; any other exception propagates.  The email fallback runs
only when the handle contains an at sign, and its `SlackApiError` is swallowed. -/
def resolve_username_to_user_id (client : SlackClient) (username : String) :
    Except Unit (Option String) × List Event :=
  match client.users_list with
  | .error .other => (.error (), [.dirCall "users_list"])
  | .error .api => (.ok none, [.dirCall "users_list"])
  | .ok resp =>
    match (if resp.ok then find_matching_user username resp.members else none) with
    | some uid => (.ok (some uid), [.dirCall "users_list"])
    | none =>
      if hasAtSign username then
        match client.users_lookupByEmail username with
        | .error .other => (.error (), [.dirCall "users_list", .dirCall "users_lookupByEmail"])
        | .error .api => (.ok none, [.dirCall "users_list", .dirCall "users_lookupByEmail"])
        | .ok er =>
          (.ok (if er.ok then some er.user_id else none),
            [.dirCall "users_list", .dirCall "users_lookupByEmail"])
      else (.ok none, [.dirCall "users_list"])

/-- Embedding of `RBACManager.resolve_admin_entry_to_user_id`: ID-shaped entries are returned
unresolved; otherwise the at-stripped handle is looked up in the username cache and,
on a miss, resolved through the directory; only a truthy result is cached. -/
def resolve_admin_entry_to_user_id (client : SlackClient) (now : Nat) (st : Caches)
    (admin_entry : String) : Except Unit (Option String) × Caches × List Event :=
  if looks_like_user_id admin_entry then (.ok (some admin_entry), st, [])
  else
    let username := stripAts admin_entry
    let cache_key := "username:" ++ username
    match lookupValid now st.username_to_id_cache cache_key with
    | some uid => (.ok (some uid), st, [])
    | none =>
      match resolve_username_to_user_id client username with
      | (.error u, ev) => (.error u, st, ev)
      | (.ok none, ev) => (.ok none, st, ev)
      | (.ok (some uid), ev) =>
        if uid == "" then (.ok (some uid), st, ev)
        else
          (.ok (some uid),
            { st with username_to_id_cache :=
                (cache_key, ⟨uid, now⟩) :: st.username_to_id_cache },
            ev)

/-- The `for usergroup in response["usergroups"]` loop of `is_user_in_group`:
on a handle match, list the group members; a members response with `ok = false`
falls through to the next usergroup; an error aborts the whole `try` block. -/
def find_group_and_check (client : SlackClient) (user_id group_name : String) :
    List Usergroup → Except DirErr (Option Bool) × List Event
  | [] => (.ok none, [])
  | g :: rest =>
    if g.handle == group_name then
      match client.usergroups_users_list g.id with
      | .error e => (.error e, [.dirCall "usergroups_users_list"])
      | .ok mr =>
        if mr.ok then (.ok (some (mr.users.contains user_id)), [.dirCall "usergroups_users_list"])
        else
          let r := find_group_and_check client user_id group_name rest
          (r.1, .dirCall "usergroups_users_list" :: r.2)
    else find_group_and_check client user_id group_name rest

/-- Embedding of `RBACManager.is_user_in_group`.  Only a found group with an `ok` members
response is cached; a `SlackApiError` anywhere in the `try` block yields `false`
without caching; any other exception propagates. -/
def is_user_in_group (client : SlackClient) (now : Nat) (st : Caches)
    (user_id group_name : String) : Except Unit Bool × Caches × List Event :=
  let cache_key := user_id ++ ":" ++ group_name
  match lookupValid now st.group_membership_cache cache_key with
  | some b => (.ok b, st, [])
  | none =>
    match client.usergroups_list with
    | .error .other => (.error (), st, [.dirCall "usergroups_list"])
    | .error .api => (.ok false, st, [.dirCall "usergroups_list"])
    | .ok resp =>
      if resp.ok then
        match find_group_and_check client user_id group_name resp.usergroups with
        | (.error .other, evs) => (.error (), st, .dirCall "usergroups_list" :: evs)
        | (.error .api, evs) => (.ok false, st, .dirCall "usergroups_list" :: evs)
        | (.ok none, evs) => (.ok false, st, .dirCall "usergroups_list" :: evs)
        | (.ok (some b), evs) =>
          (.ok b,
            { st with group_membership_cache :=
                (cache_key, ⟨b, now⟩) :: st.group_membership_cache },
            .dirCall "usergroups_list" :: evs)
      else (.ok false, st, [.dirCall "usergroups_list"])

/-- The `for admin_entry in self.admin_users` loop of `is_user_admin`: resolve each
entry and compare with the requesting identity, short-circuiting on a match. -/
def admin_entries_check (client : SlackClient) (now : Nat) (user_id : String) :
    List String → Caches → Except Unit Bool × Caches × List Event
  | [], st => (.ok false, st, [])
  | e :: rest, st =>
    match resolve_admin_entry_to_user_id client now st e with
    | (.error u, st1, ev1) => (.error u, st1, ev1)
    | (.ok r, st1, ev1) =>
      if r == some user_id then (.ok true, st1, ev1)
      else
        let q := admin_entries_check client now user_id rest st1
        (q.1, q.2.1, ev1 ++ q.2.2)

/-- The `for group in self.admin_groups` loop of `is_user_admin`. -/
def admin_groups_check (client : SlackClient) (now : Nat) (user_id : String) :
    List String → Caches → Except Unit Bool × Caches × List Event
  | [], st => (.ok false, st, [])
  | g :: rest, st =>
    match is_user_in_group client now st user_id g with
    | (.error u, st1, ev1) => (.error u, st1, ev1)
    | (.ok true, st1, ev1) => (.ok true, st1, ev1)
    | (.ok false, st1, ev1) =>
      let q := admin_groups_check client now user_id rest st1
      (q.1, q.2.1, ev1 ++ q.2.2)

/-- Embedding of `RBACManager.is_user_admin`: direct membership in `admin_users`, then the
entry-resolution loop, then the admin-group loop. -/
def is_user_admin (cfg : RBACConfig) (client : SlackClient) (now : Nat) (st : Caches)
    (user_id : String) : Except Unit Bool × Caches × List Event :=
  if cfg.admin_users.contains user_id then (.ok true, st, [])
  else
    match admin_entries_check client now user_id cfg.admin_users st with
    | (.error u, st1, ev1) => (.error u, st1, ev1)
    | (.ok true, st1, ev1) => (.ok true, st1, ev1)
    | (.ok false, st1, ev1) =>
      let q := admin_groups_check client now user_id cfg.admin_groups st1
      (q.1, q.2.1, ev1 ++ q.2.2)

/-- The `for admin_user in self.admin_users` notification loop: each send has its
own `SlackApiError` handler, while any other exception aborts the remaining sends
(it is caught only by the outer broad handler). -/
def notify_post_loop (client : SlackClient) : List String → List Event
  | [] => []
  | a :: rest =>
    match client.chat_postMessage a with
    | .error .other => [.dirCall "chat_postMessage"]
    | .error .api => .dirCall "chat_postMessage" :: notify_post_loop client rest
    | .ok _ => .dirCall "chat_postMessage" :: notify_post_loop client rest

/-- Embedding of `RBACManager.notify_admin_of_denied_access`: fetch the info of the denied user, then
message every configured admin entry; the broad `except Exception` means no failure
ever escapes, and a failing `users_info` skips the whole send loop. -/
def notify_admin_of_denied_access (cfg : RBACConfig) (client : SlackClient)
    (user_id : String) : List Event :=
  match client.users_info user_id with
  | .error _ => [.dirCall "users_info"]
  | .ok _ => .dirCall "users_info" :: notify_post_loop client cfg.admin_users

/-- The `{"allowed": ..., "reason": ...}` result value. -/
structure Decision where
  allowed : Bool
  reason : String
deriving DecidableEq, Repr

/-- Embedding of `RBACManager.check_user_permission`, mirroring the statement order of the source:
the disabled check precedes the access-attempt log; the self-service check requires
`target_user == user_id`; then admin, user-operation, admin-operation, default deny. -/
def check_user_permission (cfg : RBACConfig) (client : SlackClient) (now : Nat)
    (st : Caches) (user_id operation : String) (target_user : Option String) :
    Except Unit Decision × Caches × List Event :=
  if !cfg.rbac_enabled then (.ok ⟨true, "RBAC disabled"⟩, st, [])
  else
    let logEv : List Event :=
      if cfg.log_access_attempts then [.logRecord user_id operation] else []
    if cfg.self_service_operations.contains operation && target_user == some user_id then
      (.ok ⟨true, "Self-service operation"⟩, st, logEv)
    else
      match is_user_admin cfg client now st user_id with
      | (.error u, st1, ev1) => (.error u, st1, logEv ++ ev1)
      | (.ok true, st1, ev1) => (.ok ⟨true, "Admin user"⟩, st1, logEv ++ ev1)
      | (.ok false, st1, ev1) =>
        if cfg.user_operations.contains operation then
          (.ok ⟨true, "User operation"⟩, st1, logEv ++ ev1)
        else if cfg.admin_operations.contains operation then
          let nev : List Event :=
            if cfg.notify_admin_on_denied then
              .notifySink user_id operation :: notify_admin_of_denied_access cfg client user_id
            else []
          (.ok ⟨false, "Admin privileges required"⟩, st1, logEv ++ ev1 ++ nev)
        else (.ok ⟨false, "Unknown operation"⟩, st1, logEv ++ ev1)

/-- Embedding of `RBACManager.clear_cache`: clears only `group_membership_cache`. -/
def clear_cache (st : Caches) : Caches := { st with group_membership_cache := [] }

/-- The recognised keys of `RBACManager.update_configuration`. -/
structure ConfigUpdates where
  admin_users : Option (List String)
  admin_groups : Option (List String)
  admin_operations : Option (List String)
  user_operations : Option (List String)
  rbac_enabled : Option Bool
deriving Repr

/-- Embedding of `RBACManager.update_configuration`: replace the given fields wholesale, then
clear only `group_membership_cache`. -/
def update_configuration (cfg : RBACConfig) (st : Caches) (u : ConfigUpdates) :
    RBACConfig × Caches :=
  ({ cfg with
      admin_users := u.admin_users.getD cfg.admin_users
      admin_groups := u.admin_groups.getD cfg.admin_groups
      admin_operations := u.admin_operations.getD cfg.admin_operations
      user_operations := u.user_operations.getD cfg.user_operations
      rbac_enabled := u.rbac_enabled.getD cfg.rbac_enabled },
    { st with group_membership_cache := [] })

/-! ### Event classification helpers -/

def isDir : Event → Bool
  | .dirCall _ => true
  | _ => false

def isLog : Event → Bool
  | .logRecord _ _ => true
  | _ => false

def isSink : Event → Bool
  | .notifySink _ _ => true
  | _ => false

/-- Number of directory (Slack API) calls recorded in an event list. -/
def dirCount (evs : List Event) : Nat := (evs.filter isDir).length

theorem isLog_eq_false_of_isDir {e : Event} (h : isDir e = true) : isLog e = false := by
  cases e <;> simp_all [isDir, isLog]

theorem isSink_eq_false_of_isDir {e : Event} (h : isDir e = true) : isSink e = false := by
  cases e <;> simp_all [isDir, isSink]

theorem filter_isLog_eq_nil {evs : List Event} (h : ∀ e ∈ evs, isDir e = true) :
    evs.filter isLog = [] := by
  induction evs with
  | nil => rfl
  | cons e rest ih =>
    have he := isLog_eq_false_of_isDir (h e (by simp))
    simp [List.filter, he, ih (fun x hx => h x (by simp [hx]))]

theorem filter_isSink_eq_nil {evs : List Event} (h : ∀ e ∈ evs, isDir e = true) :
    evs.filter isSink = [] := by
  induction evs with
  | nil => rfl
  | cons e rest ih =>
    have he := isSink_eq_false_of_isDir (h e (by simp))
    simp [List.filter, he, ih (fun x hx => h x (by simp [hx]))]

/-! ### The admin-check path emits only directory-call events -/

theorem resolve_username_events (c : SlackClient) (u : String) :
    ∀ e ∈ (resolve_username_to_user_id c u).2, isDir e = true := by
  unfold resolve_username_to_user_id
  repeat' split
  all_goals simp [isDir]

theorem resolve_admin_entry_events (c : SlackClient) (now : Nat) (st : Caches) (a : String) :
    ∀ e ∈ (resolve_admin_entry_to_user_id c now st a).2.2, isDir e = true := by
  intro e he
  have hev := resolve_username_events c (stripAts a)
  simp only [resolve_admin_entry_to_user_id] at he
  split at he
  · simp at he
  · split at he
    · simp at he
    · rcases hr : resolve_username_to_user_id c (stripAts a) with ⟨r, ev⟩
      rw [hr] at he hev
      rcases r with u | ou
      · simp only [] at he
        exact hev e he
      · rcases ou with _ | uid
        · simp only [] at he
          exact hev e he
        · simp only [] at he
          split at he
          · exact hev e he
          · exact hev e he

theorem find_group_and_check_events (c : SlackClient) (uid g : String) (l : List Usergroup) :
    ∀ e ∈ (find_group_and_check c uid g l).2, isDir e = true := by
  induction l with
  | nil => simp [find_group_and_check]
  | cons hd tl ih =>
    unfold find_group_and_check
    repeat' split
    all_goals simp_all [isDir]

theorem is_user_in_group_events (c : SlackClient) (now : Nat) (st : Caches) (uid g : String) :
    ∀ e ∈ (is_user_in_group c now st uid g).2.2, isDir e = true := by
  intro e he
  simp only [is_user_in_group] at he
  split at he
  · simp at he
  · split at he
    · simp at he
      subst he
      rfl
    · simp at he
      subst he
      rfl
    · split at he
      · split at he
        all_goals
          rename_i heq
          rw [List.mem_cons] at he
          rcases he with rfl | he
          · rfl
          · exact find_group_and_check_events c uid g _ e (by rw [heq]; exact he)
      · simp at he
        subst he
        rfl

theorem admin_entries_check_events (c : SlackClient) (now : Nat) (uid : String)
    (l : List String) (st : Caches) :
    ∀ e ∈ (admin_entries_check c now uid l st).2.2, isDir e = true := by
  induction l generalizing st with
  | nil => simp [admin_entries_check]
  | cons hd tl ih =>
    unfold admin_entries_check
    split
    · rename_i st1 ev1 heq
      intro e he
      exact resolve_admin_entry_events c now st hd e (by rw [heq]; exact he)
    · rename_i r st1 ev1 heq
      split
      · intro e he
        exact resolve_admin_entry_events c now st hd e (by rw [heq]; exact he)
      · intro e he
        simp only [List.mem_append] at he
        rcases he with he | he
        · exact resolve_admin_entry_events c now st hd e (by rw [heq]; exact he)
        · exact ih st1 e he

theorem admin_groups_check_events (c : SlackClient) (now : Nat) (uid : String)
    (l : List String) (st : Caches) :
    ∀ e ∈ (admin_groups_check c now uid l st).2.2, isDir e = true := by
  induction l generalizing st with
  | nil => simp [admin_groups_check]
  | cons hd tl ih =>
    unfold admin_groups_check
    split
    · rename_i st1 ev1 heq
      intro e he
      exact is_user_in_group_events c now st uid hd e (by rw [heq]; exact he)
    · rename_i st1 ev1 heq
      intro e he
      exact is_user_in_group_events c now st uid hd e (by rw [heq]; exact he)
    · rename_i st1 ev1 heq
      intro e he
      simp only [List.mem_append] at he
      rcases he with he | he
      · exact is_user_in_group_events c now st uid hd e (by rw [heq]; exact he)
      · exact ih st1 e he

theorem is_user_admin_events (cfg : RBACConfig) (c : SlackClient) (now : Nat)
    (st : Caches) (uid : String) :
    ∀ e ∈ (is_user_admin cfg c now st uid).2.2, isDir e = true := by
  unfold is_user_admin
  split
  · simp
  · split
    · rename_i st1 ev1 heq
      intro e he
      exact admin_entries_check_events c now uid cfg.admin_users st e (by rw [heq]; exact he)
    · rename_i st1 ev1 heq
      intro e he
      exact admin_entries_check_events c now uid cfg.admin_users st e (by rw [heq]; exact he)
    · rename_i st1 ev1 heq
      intro e he
      simp only [List.mem_append] at he
      rcases he with he | he
      · exact admin_entries_check_events c now uid cfg.admin_users st e (by rw [heq]; exact he)
      · exact admin_groups_check_events c now uid cfg.admin_groups st1 e he

theorem notify_post_loop_events (c : SlackClient) (l : List String) :
    ∀ e ∈ notify_post_loop c l, isDir e = true := by
  induction l with
  | nil => simp [notify_post_loop]
  | cons hd tl ih =>
    unfold notify_post_loop
    repeat' split
    all_goals simp_all [isDir]

theorem notify_admin_events (cfg : RBACConfig) (c : SlackClient) (uid : String) :
    ∀ e ∈ notify_admin_of_denied_access cfg c uid, isDir e = true := by
  unfold notify_admin_of_denied_access
  split
  · simp [isDir]
  · intro e he
    rw [List.mem_cons] at he
    rcases he with rfl | he
    · rfl
    · exact notify_post_loop_events c cfg.admin_users e he

/-! ### Tame clients: every directory failure is a `SlackApiError`

The source catches only `SlackApiError`; under a tame client no exception can
escape the permission check. -/

def Tame (c : SlackClient) : Prop :=
  c.users_list ≠ .error .other ∧
  (∀ s, c.users_lookupByEmail s ≠ .error .other) ∧
  c.usergroups_list ≠ .error .other ∧
  (∀ s, c.usergroups_users_list s ≠ .error .other)

theorem exists_ok_of_ne_error {α : Type} {r : Except Unit α} (h : r ≠ .error ()) :
    ∃ d, r = .ok d := by
  cases r with
  | error u => cases u; exact absurd rfl h
  | ok d => exact ⟨d, rfl⟩

theorem resolve_username_ne_error {c : SlackClient} (h : Tame c) (u : String) :
    (resolve_username_to_user_id c u).1 ≠ Except.error () := by
  intro hc
  simp only [resolve_username_to_user_id] at hc
  split at hc
  · rename_i heq
    exact h.1 heq
  · simp at hc
  · split at hc
    · simp at hc
    · split at hc
      · split at hc
        · rename_i heq
          exact h.2.1 u heq
        · simp at hc
        · simp at hc
      · simp at hc

theorem resolve_admin_entry_ne_error {c : SlackClient} (h : Tame c) (now : Nat)
    (st : Caches) (a : String) :
    (resolve_admin_entry_to_user_id c now st a).1 ≠ Except.error () := by
  intro hc
  simp only [resolve_admin_entry_to_user_id] at hc
  split at hc
  · simp at hc
  · split at hc
    · simp at hc
    · have hne := resolve_username_ne_error h (stripAts a)
      rcases hr : resolve_username_to_user_id c (stripAts a) with ⟨r, ev⟩
      rw [hr] at hc hne
      rcases r with u | ou
      · cases u
        exact hne rfl
      · rcases ou with _ | uid
        · simp at hc
        · simp only [] at hc
          split at hc
          · simp at hc
          · simp at hc

theorem find_group_and_check_ne_other {c : SlackClient} (h : Tame c) (uid g : String)
    (l : List Usergroup) :
    (find_group_and_check c uid g l).1 ≠ Except.error DirErr.other := by
  induction l with
  | nil => simp [find_group_and_check]
  | cons hd tl ih =>
    intro hc
    simp only [find_group_and_check] at hc
    split at hc
    · split at hc
      · rename_i e heq
        simp only [] at hc
        injection hc with he
        subst he
        exact h.2.2.2 hd.id heq
      · split at hc
        · simp at hc
        · exact ih hc
    · exact ih hc

theorem is_user_in_group_ne_error {c : SlackClient} (h : Tame c) (now : Nat)
    (st : Caches) (uid g : String) :
    (is_user_in_group c now st uid g).1 ≠ Except.error () := by
  intro hc
  simp only [is_user_in_group] at hc
  split at hc
  · simp at hc
  · split at hc
    · rename_i heq
      exact h.2.2.1 heq
    · simp at hc
    · split at hc
      · split at hc
        · rename_i heq
          exact find_group_and_check_ne_other h uid g _ (by rw [heq])
        · simp at hc
        · simp at hc
        · simp at hc
      · simp at hc

theorem admin_entries_check_ne_error {c : SlackClient} (h : Tame c) (now : Nat)
    (uid : String) (l : List String) :
    ∀ st, (admin_entries_check c now uid l st).1 ≠ Except.error () := by
  induction l with
  | nil => intro st; simp [admin_entries_check]
  | cons hd tl ih =>
    intro st hc
    simp only [admin_entries_check] at hc
    split at hc
    · rename_i u st1 ev1 heq
      cases u
      exact resolve_admin_entry_ne_error h now st hd (by rw [heq])
    · split at hc
      · simp at hc
      · exact ih _ hc

theorem admin_groups_check_ne_error {c : SlackClient} (h : Tame c) (now : Nat)
    (uid : String) (l : List String) :
    ∀ st, (admin_groups_check c now uid l st).1 ≠ Except.error () := by
  induction l with
  | nil => intro st; simp [admin_groups_check]
  | cons hd tl ih =>
    intro st hc
    simp only [admin_groups_check] at hc
    split at hc
    · rename_i u st1 ev1 heq
      cases u
      exact is_user_in_group_ne_error h now st uid hd (by rw [heq])
    · simp at hc
    · exact ih _ hc

theorem is_user_admin_ne_error {c : SlackClient} (h : Tame c) (cfg : RBACConfig)
    (now : Nat) (st : Caches) (uid : String) :
    (is_user_admin cfg c now st uid).1 ≠ Except.error () := by
  intro hc
  simp only [is_user_admin] at hc
  split at hc
  · simp at hc
  · split at hc
    · rename_i u st1 ev1 heq
      cases u
      exact admin_entries_check_ne_error h now uid cfg.admin_users st (by rw [heq])
    · simp at hc
    · exact admin_groups_check_ne_error h now uid cfg.admin_groups _ hc

/-! ### Two clients that agree on every admin-relevant directory call -/

/-- Predicate: `c` and `c'` agree on the four calls that feed the permission decision; they
may differ arbitrarily on the notification-path calls (`users_info`,
`chat_postMessage`), including by failing there. -/
def dirAgree (c c' : SlackClient) : Prop :=
  c.users_list = c'.users_list ∧
  c.users_lookupByEmail = c'.users_lookupByEmail ∧
  c.usergroups_list = c'.usergroups_list ∧
  c.usergroups_users_list = c'.usergroups_users_list

theorem resolve_username_agree {c c' : SlackClient} (h : dirAgree c c') (u : String) :
    resolve_username_to_user_id c u = resolve_username_to_user_id c' u := by
  simp only [resolve_username_to_user_id]
  rw [h.1, h.2.1]

theorem resolve_admin_entry_agree {c c' : SlackClient} (h : dirAgree c c')
    (now : Nat) (st : Caches) (a : String) :
    resolve_admin_entry_to_user_id c now st a = resolve_admin_entry_to_user_id c' now st a := by
  simp only [resolve_admin_entry_to_user_id]
  rw [resolve_username_agree h (stripAts a)]

theorem find_group_and_check_agree {c c' : SlackClient} (h : dirAgree c c')
    (uid g : String) (l : List Usergroup) :
    find_group_and_check c uid g l = find_group_and_check c' uid g l := by
  induction l with
  | nil => rfl
  | cons hd tl ih =>
    simp only [find_group_and_check]
    rw [h.2.2.2, ih]

theorem is_user_in_group_agree {c c' : SlackClient} (h : dirAgree c c')
    (now : Nat) (st : Caches) (uid g : String) :
    is_user_in_group c now st uid g = is_user_in_group c' now st uid g := by
  simp only [is_user_in_group]
  rw [h.2.2.1]
  simp only [find_group_and_check_agree h]

theorem admin_entries_check_agree {c c' : SlackClient} (h : dirAgree c c')
    (now : Nat) (uid : String) (l : List String) :
    ∀ st, admin_entries_check c now uid l st = admin_entries_check c' now uid l st := by
  induction l with
  | nil => intro st; rfl
  | cons hd tl ih =>
    intro st
    simp only [admin_entries_check, resolve_admin_entry_agree h now, ih]

theorem admin_groups_check_agree {c c' : SlackClient} (h : dirAgree c c')
    (now : Nat) (uid : String) (l : List String) :
    ∀ st, admin_groups_check c now uid l st = admin_groups_check c' now uid l st := by
  induction l with
  | nil => intro st; rfl
  | cons hd tl ih =>
    intro st
    simp only [admin_groups_check, is_user_in_group_agree h now, ih]

theorem is_user_admin_agree {c c' : SlackClient} (h : dirAgree c c') (cfg : RBACConfig)
    (now : Nat) (st : Caches) (uid : String) :
    is_user_admin cfg c now st uid = is_user_admin cfg c' now st uid := by
  simp only [is_user_admin, admin_entries_check_agree h now, admin_groups_check_agree h now]

theorem check_decision_agree {c c' : SlackClient} (h : dirAgree c c') (cfg : RBACConfig)
    (now : Nat) (st : Caches) (uid op : String) (tgt : Option String) :
    (check_user_permission cfg c now st uid op tgt).1 =
      (check_user_permission cfg c' now st uid op tgt).1 := by
  simp only [check_user_permission, is_user_admin_agree h]
  cases hrb : cfg.rbac_enabled with
  | false => simp
  | true =>
    simp only [Bool.not_true, Bool.false_eq_true, if_false]
    split
    · rfl
    · rcases hX : is_user_admin cfg c' now st uid with ⟨r, st1, ev1⟩
      repeat' split
      all_goals simp_all

/-! ### Concrete policies and clients used by witnesses and counterexamples -/

/-- A total directory outage: every Slack call fails with `SlackApiError`. -/
def outageClient : SlackClient where
  users_list := .error .api
  users_lookupByEmail := fun _ => .error .api
  usergroups_list := .error .api
  usergroups_users_list := fun _ => .error .api
  users_info := fun _ => .error .api
  chat_postMessage := fun _ => .error .api

/-- A representative policy: one admin handle, one admin group, the default-style
operation classes, all feature flags on. -/
def cfgMain : RBACConfig where
  admin_users := ["@alice"]
  admin_groups := ["dbadmins"]
  admin_operations := ["create_cluster", "create_user", "drop_database"]
  user_operations := ["list_clusters", "help"]
  self_service_operations := ["reset_own_password", "add_ip_whitelist"]
  rbac_enabled := true
  notify_admin_on_denied := true
  log_access_attempts := true

/-- A healthy directory: `alice` resolves to `U0AAAAAAAAA`, and `U0BBBBBBBBB` is
the sole member of usergroup `dbadmins`. -/
def healthyClient : SlackClient where
  users_list := .ok ⟨true, [⟨"U0AAAAAAAAA", false, some "alice", none, none, none, none⟩]⟩
  users_lookupByEmail := fun _ => .error .api
  usergroups_list := .ok ⟨true, [⟨"G1", "dbadmins"⟩]⟩
  usergroups_users_list := fun _ => .ok ⟨true, ["U0BBBBBBBBB"]⟩
  users_info := fun _ => .ok ()
  chat_postMessage := fun _ => .ok ()

/-! ### Claim C1 -/

/-- The six-rule first-match decision sequence exactly as claim C1 states it
(RBAC disabled; self-service with matching target; admin; user operation;
admin operation; unknown), parameterised by the outcome of the admin check. -/
def claim_precedence (cfg : RBACConfig) (isAdmin : Bool) (user_id operation : String)
    (target_user : Option String) : Decision :=
  if !cfg.rbac_enabled then ⟨true, "RBAC disabled"⟩
  else if cfg.self_service_operations.contains operation && target_user == some user_id then
    ⟨true, "Self-service operation"⟩
  else if isAdmin then ⟨true, "Admin user"⟩
  else if cfg.user_operations.contains operation then ⟨true, "User operation"⟩
  else if cfg.admin_operations.contains operation then ⟨false, "Admin privileges required"⟩
  else ⟨false, "Unknown operation"⟩

/-- Claim C1: whenever the admin check completes with outcome `adm`, the decision
of `check_user_permission` is exactly the first-match six-rule sequence of the
claim: (1) RBAC disabled allows; (2) self-service with `target = identity` allows;
(3) an admin identity allows with reason "Admin user" even for operations also in
`user_operations`; (4) a `user_operations` member allows, so an operation in both
`user_operations` and `admin_operations` is allowed for a non-admin; (5) an
`admin_operations` member denies with "Admin privileges required"; (6) otherwise
the deny reason is "Unknown operation". -/
theorem check_user_permission_follows_precedence
    (cfg : RBACConfig) (client : SlackClient) (now : Nat) (st : Caches)
    (user_id operation : String) (target_user : Option String) (adm : Bool)
    (hadm : (is_user_admin cfg client now st user_id).1 = .ok adm) :
    (check_user_permission cfg client now st user_id operation target_user).1 =
      .ok (claim_precedence cfg adm user_id operation target_user) := by
  simp only [check_user_permission, claim_precedence]
  cases hrb : cfg.rbac_enabled with
  | false => simp
  | true =>
    simp only [Bool.not_true, Bool.false_eq_true, if_false]
    cases hss : (cfg.self_service_operations.contains operation && target_user == some user_id) with
    | true => simp
    | false =>
      simp only [Bool.false_eq_true, if_false]
      rcases hX : is_user_admin cfg client now st user_id with ⟨r, st1, ev1⟩
      rw [hX] at hadm
      simp only [] at hadm
      subst hadm
      cases adm
      · simp only []
        split
        · simp
        · split
          · simp
          · simp
      · simp

/-- Witness for C1 at a concrete input: a non-admin identity under a directory
outage requesting a plain user operation is allowed with reason "User operation". -/
theorem check_user_permission_follows_precedence_witness :
    (check_user_permission cfgMain outageClient 0 emptyCaches "U1" "list_clusters" none).1 =
      .ok ⟨true, "User operation"⟩ := by
  have h := check_user_permission_follows_precedence cfgMain outageClient 0 emptyCaches
    "U1" "list_clusters" none false (by decide)
  rw [h]
  decide

/-! ### Claim C2 -/

theorem admin_entries_check_outage (now : Nat) (uid : String) :
    ∀ l : List String, l.contains uid = false →
      ∃ evs, admin_entries_check outageClient now uid l emptyCaches =
        (.ok false, emptyCaches, evs) := by
  intro l
  induction l with
  | nil => exact fun _ => ⟨[], rfl⟩
  | cons hd tl ih =>
    intro h
    simp only [List.contains_cons, Bool.or_eq_false_iff] at h
    obtain ⟨evs, hrec⟩ := ih h.2
    have h1 : ((some hd == some uid) : Bool) = false := by
      simp only [beq_eq_false_iff_ne] at h ⊢
      intro hh
      exact h.1 (Option.some.inj hh).symm
    by_cases hid : looks_like_user_id hd
    · have hres : resolve_admin_entry_to_user_id outageClient now emptyCaches hd
          = (.ok (some hd), emptyCaches, []) := by
        simp [resolve_admin_entry_to_user_id, hid]
      refine ⟨evs, ?_⟩
      simp only [admin_entries_check, hres, h1, Bool.false_eq_true, if_false, hrec,
        List.nil_append]
    · have hres : resolve_admin_entry_to_user_id outageClient now emptyCaches hd
          = (.ok none, emptyCaches, [.dirCall "users_list"]) := by
        simp [resolve_admin_entry_to_user_id, hid, lookupValid, List.lookup,
          resolve_username_to_user_id, outageClient, emptyCaches]
      refine ⟨.dirCall "users_list" :: evs, ?_⟩
      simp only [admin_entries_check, hres, hrec]
      simp

theorem is_user_in_group_outage (now : Nat) (uid g : String) :
    is_user_in_group outageClient now emptyCaches uid g =
      (.ok false, emptyCaches, [.dirCall "usergroups_list"]) := by
  simp [is_user_in_group, lookupValid, List.lookup, outageClient, emptyCaches]

theorem admin_groups_check_outage (now : Nat) (uid : String) :
    ∀ l : List String, ∃ evs,
      admin_groups_check outageClient now uid l emptyCaches = (.ok false, emptyCaches, evs) := by
  intro l
  induction l with
  | nil => exact ⟨[], rfl⟩
  | cons hd tl ih =>
    obtain ⟨evs, hrec⟩ := ih
    refine ⟨.dirCall "usergroups_list" :: evs, ?_⟩
    simp only [admin_groups_check, is_user_in_group_outage, hrec]
    simp

theorem is_user_admin_outage (cfg : RBACConfig) (now : Nat) (uid : String)
    (huid : cfg.admin_users.contains uid = false) :
    ∃ evs, is_user_admin cfg outageClient now emptyCaches uid = (.ok false, emptyCaches, evs) := by
  obtain ⟨evs1, h1⟩ := admin_entries_check_outage now uid cfg.admin_users huid
  obtain ⟨evs2, h2⟩ := admin_groups_check_outage now uid cfg.admin_groups
  refine ⟨evs1 ++ evs2, ?_⟩
  simp only [is_user_admin, huid, Bool.false_eq_true, if_false, h1, h2]

/-- Claim C2 (amended): under a total directory outage in which every call fails
with `SlackApiError`, starting from empty caches, `is_user_admin` returns false
for every identity that is not directly listed in `admin_users`, and
`check_user_permission` denies every admin-gated operation (one in
`admin_operations` not allowed by an earlier rule) requested by such an identity. -/
theorem fail_closed_under_total_outage
    (cfg : RBACConfig) (now : Nat) (user_id operation : String) (target_user : Option String)
    (huid : cfg.admin_users.contains user_id = false)
    (hrb : cfg.rbac_enabled = true)
    (hss : (cfg.self_service_operations.contains operation && target_user == some user_id) = false)
    (huser : cfg.user_operations.contains operation = false)
    (hadmop : cfg.admin_operations.contains operation = true) :
    (is_user_admin cfg outageClient now emptyCaches user_id).1 = .ok false ∧
    (check_user_permission cfg outageClient now emptyCaches user_id operation target_user).1 =
      .ok ⟨false, "Admin privileges required"⟩ := by
  obtain ⟨evs, hadm⟩ := is_user_admin_outage cfg now user_id huid
  constructor
  · rw [hadm]
  · simp only [check_user_permission, hrb, Bool.not_true, Bool.false_eq_true, if_false,
      hss, hadm, huser, hadmop, if_true]

/-- Witness for C2: identity `U1` is not in the admin list of `cfgMain`; under the
outage it is not an admin and `create_cluster` is denied as admin-gated. -/
theorem fail_closed_under_total_outage_witness :
    (is_user_admin cfgMain outageClient 7 emptyCaches "U1").1 = .ok false ∧
    (check_user_permission cfgMain outageClient 7 emptyCaches "U1" "create_cluster" none).1 =
      .ok ⟨false, "Admin privileges required"⟩ :=
  fail_closed_under_total_outage cfgMain 7 "U1" "create_cluster" none
    (by decide) (by decide) (by decide) (by decide) (by decide)

/-- Counterexample to C2 as stated: with `admin_users = [identity]` the identity is
an admin even though every directory call raises, so "`is_user_admin` returns false
for every identity" fails; the direct-membership rule consults no directory. -/
theorem direct_admin_survives_total_outage :
    (is_user_admin ⟨["U0CCCCCCCCC"], [], ["create_cluster"], [], [], true, true, true⟩
        outageClient 0 emptyCaches "U0CCCCCCCCC").1 = .ok true ∧
    (check_user_permission ⟨["U0CCCCCCCCC"], [], ["create_cluster"], [], [], true, true, true⟩
        outageClient 0 emptyCaches "U0CCCCCCCCC" "create_cluster" none).1 =
      .ok ⟨true, "Admin user"⟩ := by
  constructor <;> decide

/-! ### Claim C3 -/

/-- Counterexample to C3 as stated: `clear_cache` (like `update_configuration`)
clears only the group-membership cache.  A previously cached identity-to-ID
resolution (`alice` to `U0AAAAAAAAA`) is still served from the username cache
after `clear_cache`: even under a total directory outage the admin decision is
reproduced with an empty event list, i.e. without re-querying the directory. -/
theorem username_cache_survives_clear_cache :
    check_user_permission ⟨["alice"], [], ["create_cluster"], [], [], true, true, false⟩
        outageClient 10 (clear_cache ⟨[], [("username:alice", ⟨"U0AAAAAAAAA", 0⟩)]⟩)
        "U0AAAAAAAAA" "create_cluster" none =
      (.ok ⟨true, "Admin user"⟩, ⟨[], [("username:alice", ⟨"U0AAAAAAAAA", 0⟩)]⟩, []) := by
  decide

/-- Claim C3 (amended): `clear_cache` and a configuration update invalidate every
cached group-membership pair (the next `is_user_in_group` re-queries the
directory), but neither touches the username-to-ID cache, whose entries keep
being served until TTL expiry. -/
theorem clear_cache_invalidates_group_cache_only
    (cfg : RBACConfig) (st : Caches) (u : ConfigUpdates) (client : SlackClient)
    (now : Nat) (uid g : String) :
    (clear_cache st).group_membership_cache = [] ∧
    (clear_cache st).username_to_id_cache = st.username_to_id_cache ∧
    (update_configuration cfg st u).2.group_membership_cache = [] ∧
    (update_configuration cfg st u).2.username_to_id_cache = st.username_to_id_cache ∧
    Event.dirCall "usergroups_list" ∈ (is_user_in_group client now (clear_cache st) uid g).2.2 := by
  refine ⟨rfl, rfl, rfl, rfl, ?_⟩
  have hlv : lookupValid now (clear_cache st).group_membership_cache (uid ++ ":" ++ g) = none := rfl
  simp only [is_user_in_group, hlv]
  repeat' split
  all_goals simp

/-! ### Claim C4 -/

/-- A directory whose usergroup listing succeeds but contains no groups at all. -/
def noGroupsClient : SlackClient where
  users_list := .error .api
  users_lookupByEmail := fun _ => .error .api
  usergroups_list := .ok ⟨true, []⟩
  usergroups_users_list := fun _ => .error .api
  users_info := fun _ => .error .api
  chat_postMessage := fun _ => .error .api

/-- Counterexample to C4 as stated: when `listGroups` succeeds but no group handle
matches, the negative result is NOT cached — the cache is returned unchanged, and
a repeated call inside the TTL window (here at `now = 60`) issues a further
directory call instead of being served from the cache. -/
theorem group_no_match_not_cached :
    is_user_in_group noGroupsClient 0 emptyCaches "U1" "dbadmins" =
      (.ok false, emptyCaches, [.dirCall "usergroups_list"]) ∧
    is_user_in_group noGroupsClient 60 emptyCaches "U1" "dbadmins" =
      (.ok false, emptyCaches, [.dirCall "usergroups_list"]) := by
  constructor <;> decide

theorem find_group_and_check_no_match (client : SlackClient) (uid g : String)
    (l : List Usergroup) (h : ∀ ug ∈ l, (ug.handle == g) = false) :
    find_group_and_check client uid g l = (.ok none, []) := by
  induction l with
  | nil => rfl
  | cons hd tl ih =>
    simp only [find_group_and_check, h hd (by simp), Bool.false_eq_true, if_false]
    exact ih fun ug hug => h ug (by simp [hug])

/-- Claim C4 (amended): a cache-missing `is_user_in_group` call whose
`listGroups` succeeds with no group matching the handle returns false WITHOUT
caching the negative result (state unchanged, so a repeated call re-queries the
directory); a `SlackApiError` on this path likewise returns false without
caching. -/
theorem is_user_in_group_no_match_uncached
    (client : SlackClient) (now : Nat) (st : Caches) (uid g : String)
    (hmiss : lookupValid now st.group_membership_cache (uid ++ ":" ++ g) = none) :
    (∀ resp, client.usergroups_list = .ok resp → resp.ok = true →
      (∀ ug ∈ resp.usergroups, (ug.handle == g) = false) →
      is_user_in_group client now st uid g = (.ok false, st, [.dirCall "usergroups_list"])) ∧
    (client.usergroups_list = .error .api →
      is_user_in_group client now st uid g = (.ok false, st, [.dirCall "usergroups_list"])) := by
  constructor
  · intro resp hc hok hug
    simp only [is_user_in_group, hmiss, hc, hok, if_true,
      find_group_and_check_no_match client uid g resp.usergroups hug]
  · intro hc
    simp only [is_user_in_group, hmiss, hc]

/-- Witness for C4 (amended) at a concrete input: the empty-group directory. -/
theorem is_user_in_group_no_match_uncached_witness :
    is_user_in_group noGroupsClient 5 emptyCaches "U7" "dbadmins" =
      (.ok false, emptyCaches, [.dirCall "usergroups_list"]) := by
  exact (is_user_in_group_no_match_uncached noGroupsClient 5 emptyCaches "U7" "dbadmins"
    (by decide)).1 ⟨true, []⟩ (by decide) (by decide) (by decide)

/-! ### Claim C5 -/

/-- A directory whose user listing fails with a non-`SlackApiError` exception
(e.g. a connection error or a malformed-response key error). -/
def connectionFailClient : SlackClient where
  users_list := .error .other
  users_lookupByEmail := fun _ => .error .api
  usergroups_list := .error .api
  usergroups_users_list := fun _ => .error .api
  users_info := fun _ => .error .api
  chat_postMessage := fun _ => .error .api

/-- Counterexample to C5 as stated: the source catches only `SlackApiError`, so a
directory failure of any other kind escapes `check_user_permission` as an
exception (modelled by `Except.error ()`) instead of a returned decision. -/
theorem check_user_permission_propagates_non_api_error :
    (check_user_permission ⟨["alice"], [], ["create_cluster"], [], [], true, true, true⟩
        connectionFailClient 0 emptyCaches "U1" "create_cluster" none).1 =
      Except.error () := by
  decide

/-- Claim C5 (amended): for every client whose directory failures are all of the
caught `SlackApiError` kind (and whose responses are well-formed), every
`check_user_permission` call returns a decision — no exception escapes, for every
identity, operation, target, cache state and time. -/
theorem check_user_permission_total_for_tame_client
    {client : SlackClient} (h : Tame client) (cfg : RBACConfig) (now : Nat) (st : Caches)
    (user_id operation : String) (target_user : Option String) :
    ∃ d, (check_user_permission cfg client now st user_id operation target_user).1 =
      Except.ok d := by
  apply exists_ok_of_ne_error
  intro hc
  simp only [check_user_permission] at hc
  split at hc
  · simp at hc
  · split at hc
    · simp at hc
    · rcases hX : is_user_admin cfg client now st user_id with ⟨r, st1, ev1⟩
      rw [hX] at hc
      rcases r with u | b
      · cases u
        exact is_user_admin_ne_error h cfg now st user_id (by rw [hX])
      · cases b
        · simp only [] at hc
          split at hc
          · simp at hc
          · split at hc <;> simp at hc
        · simp at hc

/-- Witness for C5 (amended): the all-`SlackApiError` outage client is tame, and a
concrete check under it returns a decision. -/
theorem outage_is_tame : Tame outageClient := by
  refine ⟨by decide, fun s hcon => ?_, by decide, fun s hcon => ?_⟩ <;>
    · injection hcon with h2
      cases h2

theorem check_user_permission_total_for_tame_client_witness :
    ∃ d, (check_user_permission cfgMain outageClient 3 emptyCaches "U1" "create_user" none).1 =
      Except.ok d :=
  check_user_permission_total_for_tame_client outage_is_tame
    cfgMain 3 emptyCaches "U1" "create_user" none

/-! ### Claim C6 -/

/-- Counterexample to C6 as stated: the disabled-RBAC early return precedes the
access-attempt log, so with `log_access_attempts = true` and RBAC disabled a call
emits NO log record at all ("regardless of outcome" fails). -/
theorem no_access_log_when_rbac_disabled :
    check_user_permission ⟨[], [], [], [], [], false, true, true⟩ outageClient 0 emptyCaches
        "U1" "help" none = (.ok ⟨true, "RBAC disabled"⟩, emptyCaches, []) := by
  decide

theorem filter_isLog_notify (cfg : RBACConfig) (client : SlackClient) (uid op : String) :
    ((Event.notifySink uid op :: notify_admin_of_denied_access cfg client uid).filter isLog)
      = [] := by
  rw [List.filter_cons_of_neg (by simp [isLog])]
  exact filter_isLog_eq_nil (notify_admin_events cfg client uid)

/-- Claim C6 (amended): with RBAC enabled and `log_access_attempts` set, every
call emits exactly one access-attempt record, carrying the identity and the
operation (the record is written before the decision is computed, so it cannot
contain the decision), in every outcome including the exception-propagating one;
with RBAC disabled no record is emitted. -/
theorem one_access_log_per_enabled_check
    (cfg : RBACConfig) (client : SlackClient) (now : Nat) (st : Caches)
    (user_id operation : String) (target_user : Option String) :
    (cfg.log_access_attempts = true → cfg.rbac_enabled = true →
      ((check_user_permission cfg client now st user_id operation target_user).2.2.filter isLog)
        = [Event.logRecord user_id operation]) ∧
    (cfg.rbac_enabled = false →
      (check_user_permission cfg client now st user_id operation target_user).2.2 = []) := by
  constructor
  · intro hlog hrb
    simp only [check_user_permission, hrb, Bool.not_true, Bool.false_eq_true, if_false,
      hlog, if_true]
    rcases hX : is_user_admin cfg client now st user_id with ⟨r, st1, ev1⟩
    have hev1 : ev1.filter isLog = [] := by
      apply filter_isLog_eq_nil
      intro e he
      have hall := is_user_admin_events cfg client now st user_id
      rw [hX] at hall
      exact hall e he
    split
    · simp [isLog]
    · rcases r with u | b
      · simp only []
        simp [List.filter_append, hev1, isLog]
      · cases b
        · simp only []
          split
          · simp [List.filter_append, hev1, isLog]
          · split
            · cases hn : cfg.notify_admin_on_denied
              · simp [List.filter_append, hev1, isLog, hn]
              · simp only [hn, if_true, List.filter_append, hev1, filter_isLog_notify]
                simp [isLog]
            · simp [List.filter_append, hev1, isLog]
        · simp only []
          simp [List.filter_append, hev1, isLog]
  · intro hrb
    simp [check_user_permission, hrb]

/-- Witness for C6 (amended): a concrete enabled check logs exactly its one
identity-and-operation record. -/
theorem one_access_log_per_enabled_check_witness :
    ((check_user_permission cfgMain healthyClient 0 emptyCaches "U1" "create_cluster" none).2.2.filter
      isLog) = [Event.logRecord "U1" "create_cluster"] :=
  (one_access_log_per_enabled_check cfgMain healthyClient 0 emptyCaches "U1" "create_cluster"
    none).1 (by decide) (by decide)

/-! ### Claim C7 -/

/-- Counterexample to C7 as stated: `reset_own_password` is self-service, yet a
call with the target omitted is NOT granted "Self-service operation" — it falls
through (here to the unknown-operation deny), because the source test
`target_user == user_id` is false when `target_user` is `None`. -/
theorem omitted_target_skips_self_service :
    check_user_permission ⟨[], [], [], [], ["reset_own_password"], true, true, false⟩
        outageClient 0 emptyCaches "U1" "reset_own_password" none =
      (.ok ⟨false, "Unknown operation"⟩, emptyCaches, []) := by
  decide

/-- Claim C7 (amended): the self-service rule fires only when a target is present
and equal to the identity; with the target omitted no call is ever granted with
reason "Self-service operation" (the code has no notion of inherently
self-referential operations), while an explicit `target = identity` is granted it
whenever the operation is self-service and RBAC is enabled. -/
theorem self_service_requires_explicit_target
    (cfg : RBACConfig) (client : SlackClient) (now : Nat) (st : Caches)
    (user_id operation : String) :
    (∀ d, (check_user_permission cfg client now st user_id operation none).1 = .ok d →
        d.reason ≠ "Self-service operation") ∧
    (cfg.rbac_enabled = true → cfg.self_service_operations.contains operation = true →
      (check_user_permission cfg client now st user_id operation (some user_id)).1 =
        .ok ⟨true, "Self-service operation"⟩) := by
  constructor
  · intro d hd
    simp only [check_user_permission] at hd
    split at hd
    · simp only [Except.ok.injEq] at hd
      subst hd
      decide
    · split at hd
      · rename_i hcond
        simp at hcond
      · split at hd
        · simp at hd
        · simp only [Except.ok.injEq] at hd
          subst hd
          decide
        · split at hd
          · simp only [Except.ok.injEq] at hd
            subst hd
            decide
          · split at hd
            · simp only [Except.ok.injEq] at hd
              subst hd
              decide
            · simp only [Except.ok.injEq] at hd
              subst hd
              decide
  · intro hrb hss
    simp only [check_user_permission, hrb, Bool.not_true, Bool.false_eq_true, if_false, hss,
      beq_self_eq_true, Bool.and_self, if_true]

/-- Witness for C7 (amended): a self-service operation with an explicit matching
target is granted for a non-admin identity. -/
theorem self_service_requires_explicit_target_witness :
    (check_user_permission cfgMain outageClient 0 emptyCaches "U3" "add_ip_whitelist"
        (some "U3")).1 = .ok ⟨true, "Self-service operation"⟩ :=
  (self_service_requires_explicit_target cfgMain outageClient 0 emptyCaches "U3"
    "add_ip_whitelist").2 (by decide) (by decide)

/-! ### Claim C8 -/

theorem filter_isSink_notify (cfg : RBACConfig) (client : SlackClient) (uid op : String) :
    ((Event.notifySink uid op :: notify_admin_of_denied_access cfg client uid).filter isSink)
      = [Event.notifySink uid op] := by
  rw [List.filter_cons_of_pos (by simp [isSink]),
    filter_isSink_eq_nil (notify_admin_events cfg client uid)]

/-- Claim C8: an admin-gated operation requested by a non-admin identity (and not
allowed by an earlier rule) is denied with reason "Admin privileges required";
the event trace contains exactly one NotificationSink invocation when
`notify_admin_on_denied` is true and zero when it is false; and any behaviour of
the notification-path calls (`users_info`, `chat_postMessage`) — including
failures — leaves the returned decision unchanged (`clientAlt` may differ from
`client` arbitrarily on those two calls). -/
theorem admin_denied_notification_contract
    (cfg : RBACConfig) (client clientAlt : SlackClient) (now : Nat) (st : Caches)
    (user_id operation : String) (target_user : Option String)
    (hagree : dirAgree client clientAlt)
    (hrb : cfg.rbac_enabled = true)
    (hss : (cfg.self_service_operations.contains operation && target_user == some user_id) = false)
    (hadm : (is_user_admin cfg client now st user_id).1 = .ok false)
    (huser : cfg.user_operations.contains operation = false)
    (hadmop : cfg.admin_operations.contains operation = true) :
    (check_user_permission cfg client now st user_id operation target_user).1 =
      .ok ⟨false, "Admin privileges required"⟩ ∧
    ((check_user_permission cfg client now st user_id operation target_user).2.2.filter isSink)
      = (if cfg.notify_admin_on_denied then [Event.notifySink user_id operation] else []) ∧
    (check_user_permission cfg clientAlt now st user_id operation target_user).1 =
      .ok ⟨false, "Admin privileges required"⟩ := by
  rcases hX : is_user_admin cfg client now st user_id with ⟨r, st1, ev1⟩
  rw [hX] at hadm
  simp only [] at hadm
  subst hadm
  have hev1 : ev1.filter isSink = [] := by
    apply filter_isSink_eq_nil
    intro e he
    have hall := is_user_admin_events cfg client now st user_id
    rw [hX] at hall
    exact hall e he
  have h1 : (check_user_permission cfg client now st user_id operation target_user).1 =
      .ok ⟨false, "Admin privileges required"⟩ := by
    simp only [check_user_permission, hrb, Bool.not_true, Bool.false_eq_true, if_false, hss,
      hX, huser, hadmop, if_true]
  refine ⟨h1, ?_, ?_⟩
  · simp only [check_user_permission, hrb, Bool.not_true, Bool.false_eq_true, if_false, hss,
      hX, huser, hadmop, if_true, List.filter_append, hev1]
    cases hn : cfg.notify_admin_on_denied
    · cases hlog : cfg.log_access_attempts <;> simp [isSink]
    · simp only [if_true, filter_isSink_notify]
      cases hlog : cfg.log_access_attempts <;> simp [isSink]
  · rw [← check_decision_agree hagree cfg now st user_id operation target_user]
    exact h1

/-- Witness for C8 at a concrete input: the healthy directory, a non-admin
identity, and `drop_database`, with notification enabled. -/
theorem admin_denied_notification_contract_witness :
    (check_user_permission cfgMain healthyClient 0 emptyCaches "U1" "drop_database" none).1 =
      .ok ⟨false, "Admin privileges required"⟩ ∧
    ((check_user_permission cfgMain healthyClient 0 emptyCaches "U1" "drop_database" none).2.2.filter
      isSink) = [Event.notifySink "U1" "drop_database"] := by
  have h := admin_denied_notification_contract cfgMain healthyClient healthyClient 0 emptyCaches
    "U1" "drop_database" none ⟨rfl, rfl, rfl, rfl⟩ (by decide) (by decide) (by decide)
    (by decide) (by decide)
  exact ⟨h.1, h.2.1.trans (by decide)⟩

/-! ### Claim C9 -/

theorem resolve_username_at_least_one_call (c : SlackClient) (u : String) :
    1 ≤ dirCount (resolve_username_to_user_id c u).2 := by
  rcases hc : c.users_list with e | resp
  · cases e <;> simp [resolve_username_to_user_id, hc, dirCount, isDir]
  · simp only [resolve_username_to_user_id, hc]
    repeat' split
    all_goals simp [dirCount, isDir]

/-- Claim C9: a cache-missing resolution of a non-ID-shaped admin-list handle
with no at sign that succeeds issues exactly one directory call; re-resolving the
same handle at any `t2` with `t2 - t1 < 300` is served from the username cache
(same result, no directory call, state unchanged); re-resolving at any `t3` with
`t3 - t1 ≥ 300` issues a fresh directory call. -/
theorem resolution_cache_ttl_round_trip
    (client : SlackClient) (entry uid : String) (st0 : Caches) (t1 t2 t3 : Nat)
    (hshape : looks_like_user_id entry = false)
    (hat : hasAtSign (stripAts entry) = false)
    (hmiss : st0.username_to_id_cache.lookup ("username:" ++ stripAts entry) = none)
    (hsucc : (resolve_admin_entry_to_user_id client t1 st0 entry).1 = .ok (some uid))
    (hne : (uid == "") = false)
    (ht2 : t2 - t1 < 300) (ht3 : ¬ t3 - t1 < 300) :
    dirCount (resolve_admin_entry_to_user_id client t1 st0 entry).2.2 = 1 ∧
    resolve_admin_entry_to_user_id client t2
        (resolve_admin_entry_to_user_id client t1 st0 entry).2.1 entry =
      (.ok (some uid), (resolve_admin_entry_to_user_id client t1 st0 entry).2.1, []) ∧
    1 ≤ dirCount (resolve_admin_entry_to_user_id client t3
        (resolve_admin_entry_to_user_id client t1 st0 entry).2.1 entry).2.2 := by
  have hlv1 : lookupValid t1 st0.username_to_id_cache ("username:" ++ stripAts entry) = none := by
    simp [lookupValid, hmiss]
  rcases hru : resolve_username_to_user_id client (stripAts entry) with ⟨r, ev⟩
  simp only [resolve_admin_entry_to_user_id, hshape, Bool.false_eq_true, if_false, hlv1,
    hru] at hsucc
  rcases r with u | ou
  · simp at hsucc
  · rcases ou with _ | u2
    · simp at hsucc
    · simp only [] at hsucc
      split at hsucc
      · rename_i hu2
        simp only [Except.ok.injEq, Option.some.injEq] at hsucc
        subst hsucc
        simp [hu2] at hne
      · simp only [Except.ok.injEq, Option.some.injEq] at hsucc
        subst hsucc
        -- pin the events of the successful resolution
        have hev : ev = [.dirCall "users_list"] := by
          simp only [resolve_username_to_user_id] at hru
          split at hru
          · simp at hru
          · simp at hru
          · split at hru
            · simp only [Prod.mk.injEq, Except.ok.injEq] at hru
              exact hru.2.symm
            · split at hru
              · rename_i hAt
                rw [hat] at hAt
                exact absurd hAt (by simp)
              · simp at hru
        subst hev
        rename_i hu2
        have h1 : resolve_admin_entry_to_user_id client t1 st0 entry =
            (.ok (some u2),
              ⟨st0.group_membership_cache,
                ("username:" ++ stripAts entry, ⟨u2, t1⟩) :: st0.username_to_id_cache⟩,
              [.dirCall "users_list"]) := by
          simp only [resolve_admin_entry_to_user_id, hshape, Bool.false_eq_true, if_false,
            hlv1, hru, hu2, if_false]
        rw [h1]
        refine ⟨by simp [dirCount, isDir], ?_, ?_⟩
        · have hlv2 : lookupValid t2
              (("username:" ++ stripAts entry, (⟨u2, t1⟩ : CacheEntry String)) ::
                st0.username_to_id_cache) ("username:" ++ stripAts entry) = some u2 := by
            simp [lookupValid, List.lookup, cache_ttl, ht2]
          simp only [resolve_admin_entry_to_user_id, hshape, Bool.false_eq_true, if_false, hlv2]
        · have hlv3 : lookupValid t3
              (("username:" ++ stripAts entry, (⟨u2, t1⟩ : CacheEntry String)) ::
                st0.username_to_id_cache) ("username:" ++ stripAts entry) = none := by
            simp [lookupValid, List.lookup, cache_ttl, ht3]
          simp only [resolve_admin_entry_to_user_id, hshape, Bool.false_eq_true, if_false,
            hlv3, hru, hu2, if_false]
          simp [dirCount, isDir]

/-- Witness for C9 at a concrete input: `@alice` against the healthy directory,
resolved at `t1 = 0`, re-resolved at `t2 = 299` (cache hit) and `t3 = 300`
(expired, directory re-queried). -/
theorem resolution_cache_ttl_round_trip_witness :
    dirCount (resolve_admin_entry_to_user_id healthyClient 0 emptyCaches "@alice").2.2 = 1 ∧
    resolve_admin_entry_to_user_id healthyClient 299
        (resolve_admin_entry_to_user_id healthyClient 0 emptyCaches "@alice").2.1 "@alice" =
      (.ok (some "U0AAAAAAAAA"),
        (resolve_admin_entry_to_user_id healthyClient 0 emptyCaches "@alice").2.1, []) ∧
    1 ≤ dirCount (resolve_admin_entry_to_user_id healthyClient 300
        (resolve_admin_entry_to_user_id healthyClient 0 emptyCaches "@alice").2.1 "@alice").2.2 :=
  resolution_cache_ttl_round_trip healthyClient "@alice" "U0AAAAAAAAA" emptyCaches 0 299 300
    (by decide) (by decide) (by decide) (by decide) (by decide) (by decide) (by decide)

/-! ### Claim C10 -/

/-- Claim C10: when the username lookup fails (directory error swallowed as
`SlackApiError`, or no matching user), `resolve_admin_entry_to_user_id` on a
cache-missing non-ID-shaped entry returns no ID, leaves the username cache (and
the whole cache state) unchanged, and issued at least one directory call — so a
repeated attempt starts from the same state and re-queries the directory. -/
theorem failed_resolution_not_cached
    (client : SlackClient) (now : Nat) (st : Caches) (entry : String)
    (hshape : looks_like_user_id entry = false)
    (hmiss : lookupValid now st.username_to_id_cache ("username:" ++ stripAts entry) = none)
    (hfail : (resolve_username_to_user_id client (stripAts entry)).1 = .ok none) :
    (resolve_admin_entry_to_user_id client now st entry).1 = .ok none ∧
    (resolve_admin_entry_to_user_id client now st entry).2.1 = st ∧
    1 ≤ dirCount (resolve_admin_entry_to_user_id client now st entry).2.2 := by
  have hcalls := resolve_username_at_least_one_call client (stripAts entry)
  rcases hru : resolve_username_to_user_id client (stripAts entry) with ⟨r, ev⟩
  rw [hru] at hfail hcalls
  simp only [] at hfail hcalls
  subst hfail
  have h1 : resolve_admin_entry_to_user_id client now st entry = (.ok none, st, ev) := by
    simp only [resolve_admin_entry_to_user_id, hshape, Bool.false_eq_true, if_false, hmiss, hru]
  rw [h1]
  exact ⟨rfl, rfl, hcalls⟩

/-- Witness for C10 at a concrete input: `@bob` under the total outage; nothing is
cached and the lookup was issued. -/
theorem failed_resolution_not_cached_witness :
    (resolve_admin_entry_to_user_id outageClient 0 emptyCaches "@bob").1 = .ok none ∧
    (resolve_admin_entry_to_user_id outageClient 0 emptyCaches "@bob").2.1 = emptyCaches ∧
    1 ≤ dirCount (resolve_admin_entry_to_user_id outageClient 0 emptyCaches "@bob").2.2 :=
  failed_resolution_not_cached outageClient 0 emptyCaches "@bob"
    (by decide) (by decide) (by decide)

end RBAC
